import Mathlib

/-!
Verification of the coco-backend real-time session orchestration core.

This file is a shallow embedding of the per-session state machine of the
conversation-coach backend: the data model (`app/models/session.py`), the
session registry (`app/services/session_manager.py`), the per-tick body of
the background analysis cycle and the finalize flow (`app/api/routes.py`,
whose logic is duplicated verbatim in `main.py`), and the slicing /
serialization steps of the AI adapter (`app/services/ai_service.py`).

Modelling conventions:
- Python strings are Lean `String`s; `str.strip()` is `pyStrip`.
- Python `bytes` are `List Nat`; only lengths and concatenation matter.
- `datetime.utcnow()` is an abstract `Nat` clock ("time units" = seconds);
  `(a - b).seconds` on a timedelta with `a ≥ b` is `(a - b) % 86400`
  (`tdSeconds`); the clock is assumed nondecreasing, as `utcnow` is.
- External capabilities (transcription, suggestion generation, speech
  synthesis, session analysis) are oracles: each tick / finalize call is
  parameterized by the value the capability would return.  Speech synthesis
  is fallible (`Except`), matching the `try/except` around the TTS call;
  the analysis capability may fail or return a malformed payload
  (`Option RawAnalysis`).
- `asyncio` concurrency is cooperative: control changes hands only at
  `await` points.  The two-line buffer detach in `routes.py`
  (`audio_data = session.audio_buffer; session.audio_buffer = b""`)
  contains no `await`, so it is a single atomic step relative to the
  ingestion loop's `session.audio_buffer += data["bytes"]`.
-/

namespace Coco

/-- Python `str.strip()`: drop ASCII/unicode whitespace from both ends. -/
def pyStrip (s : String) : String :=
  ⟨((s.data.dropWhile Char.isWhitespace).reverse.dropWhile Char.isWhitespace).reverse⟩

/-- Python truthiness of a string: non-empty. -/
def pyTruthy (s : String) : Bool := s ≠ ""

/-- Model of `(datetime.utcnow() - session.last_suggestion_time).seconds`:
the `seconds` component of a timedelta, i.e. the elapsed seconds modulo one
day (86400 s) when `now ≥ last`.  (`Nat` subtraction truncates at 0 for a
clock running backwards, which the model excludes.) -/
def tdSeconds (now last : Nat) : Nat := (now - last) % 86400

/-- One transcript entry, `{speaker, text, timestamp}`
(`Session.add_transcript_entry` in `app/models/session.py`; timestamps are
abstract clock values). -/
structure TranscriptEntry where
  speaker : String
  text : String
  timestamp : Nat
deriving DecidableEq, Repr

/-- One conversation-history entry, `{role, content}`. -/
structure ChatMsg where
  role : String
  content : String
deriving DecidableEq, Repr

/-- The in-memory `Session` object of `app/models/session.py`. -/
structure Session where
  sessionId : String
  context : String
  goal : String
  userName : String
  participants : String := ""
  tone : String := ""
  transcript : List TranscriptEntry := []
  audioBuffer : List Nat := []
  lastSuggestionTime : Nat := 0
  conversationHistory : List ChatMsg := []
  active : Bool := false
deriving DecidableEq, Repr

/-- Outbound WebSocket frames sent by the orchestrator
(`websocket.send_json` calls in `routes.py`). -/
inductive OutEvent where
  | transcriptEv (text : String) (speaker : String) (timestamp : Nat)
  | suggestionEv (text : String) (timestamp : Nat)
  | audioEv (data : String) (format : String)
  | errorEv (message : String)
deriving DecidableEq, Repr

/-- The oracle inputs available to one wake of the analysis cycle: the
current clock and the values the external capabilities would return on this
tick.  `transcribeRes` and `suggestRes` are the raw model outputs (the
adapter strips them); `ttsRes` is the speech-synthesis outcome, `Except.error`
when `ai_service.generate_tts_audio` raises. -/
structure TickInput where
  now : Nat
  transcribeRes : String
  suggestRes : String
  ttsRes : Except String String
deriving Repr

/-- The `conversation_history[-6:]` slice of
`AIService.generate_coaching_suggestion` (`ai_service.py` line 92): the most
recent six history entries, or the whole history when it is shorter. -/
def recentWindow (history : List ChatMsg) : List ChatMsg :=
  history.drop (history.length - 6)

/-- The `'\n'.join(f"{msg['role']}: {msg['content']}" ...)` prompt block
built by `AIService.generate_coaching_suggestion` from the sliced history. -/
def conversationText (history : List ChatMsg) : String :=
  String.intercalate "\n" ((recentWindow history).map fun m => m.role ++ ": " ++ m.content)

/-- Result of one wake of the analysis cycle: the updated session, the
outbound frames sent during the wake (in order), how many times each
external capability was invoked, and — when the suggestion capability was
invoked — the history window handed to it. -/
structure TickResult where
  session : Session
  events : List OutEvent
  transcribeCalls : Nat
  suggestCalls : Nat
  ttsCalls : Nat
  suggestWindow : Option (List ChatMsg)
deriving DecidableEq, Repr

/-- The body of one wake of `process_audio_and_generate_suggestions`
(`routes.py` lines 42–108, identical in `main.py` lines 102–222):
threshold check, atomic detach-and-reset of the audio buffer, transcription,
transcript/history append + transcript frame on non-empty text, suggestion
gating (`elapsed.seconds ≥ 8` and `len(history) ≥ 2`), suggestion frame,
fallible TTS with audio frame, and the unconditional
`last_suggestion_time = utcnow()` after the TTS `try/except`. -/
def processTick (i : TickInput) (s : Session) : TickResult :=
  if s.audioBuffer.length > 16000 * 2 then
    -- audio_data = session.audio_buffer; session.audio_buffer = b""
    let s1 : Session := { s with audioBuffer := [] }
    -- user_text = ai_service.transcribe_audio(audio_data)  (returns .strip()-ed)
    let userText := pyStrip i.transcribeRes
    if userText ≠ "" then
      let s2 : Session :=
        { s1 with
          transcript := s1.transcript ++ [⟨"user", userText, i.now⟩],
          conversationHistory := s1.conversationHistory ++ [⟨"user", userText⟩] }
      let ev1 := OutEvent.transcriptEv userText "user" i.now
      if 8 ≤ tdSeconds i.now s2.lastSuggestionTime ∧ 2 ≤ s2.conversationHistory.length then
        let suggestion := pyStrip i.suggestRes
        let s3 : Session :=
          { s2 with transcript := s2.transcript ++ [⟨"coach", suggestion, i.now⟩] }
        let ev2 := OutEvent.suggestionEv suggestion i.now
        match i.ttsRes with
        | .ok audioB64 =>
            { session := { s3 with lastSuggestionTime := i.now },
              events := [ev1, ev2, OutEvent.audioEv audioB64 "mp3"],
              transcribeCalls := 1, suggestCalls := 1, ttsCalls := 1,
              suggestWindow := some (recentWindow s2.conversationHistory) }
        | .error _ =>
            { session := { s3 with lastSuggestionTime := i.now },
              events := [ev1, ev2],
              transcribeCalls := 1, suggestCalls := 1, ttsCalls := 1,
              suggestWindow := some (recentWindow s2.conversationHistory) }
      else
        { session := s2, events := [ev1],
          transcribeCalls := 1, suggestCalls := 0, ttsCalls := 0, suggestWindow := none }
    else
      { session := s1, events := [],
        transcribeCalls := 1, suggestCalls := 0, ttsCalls := 0, suggestWindow := none }
  else
    { session := s, events := [],
      transcribeCalls := 0, suggestCalls := 0, ttsCalls := 0, suggestWindow := none }

/-- The ingestion loop's append: `session.audio_buffer += data["bytes"]`
(`routes.py` line 126). -/
def appendAudio (s : Session) (bytes : List Nat) : Session :=
  { s with audioBuffer := s.audioBuffer ++ bytes }

/-! ## The analysis-cycle loop as a machine

`process_audio_and_generate_suggestions` is
`while session.active: await asyncio.sleep(3); <body>`.
`Phase.checking` is the loop-condition check, `Phase.sleeping` is the
3-time-unit sleep (the body runs on the wake that ends it), `Phase.done` is
loop exit.  The environment (ingestion loop or `finish_session`) may set
`active = False` between machine steps; `deactivate` models that write. -/

inductive Phase where
  | checking
  | sleeping
  | done
deriving DecidableEq, Repr

/-- The analysis-cycle task: its control point, the shared session object,
and the log of every outbound frame it has sent so far. -/
structure CycleState where
  phase : Phase
  session : Session
  log : List OutEvent
deriving DecidableEq, Repr

/-- One scheduler step of the analysis-cycle task: at `checking` test
`session.active` (loop condition); at `sleeping` wake and run the tick body,
appending its outbound frames to the log; at `done` do nothing. -/
def cycleStep (i : TickInput) (m : CycleState) : CycleState :=
  match m.phase with
  | .checking =>
      if m.session.active then { m with phase := .sleeping } else { m with phase := .done }
  | .sleeping =>
      let r := processTick i m.session
      { phase := .checking, session := r.session, log := m.log ++ r.events }
  | .done => m

/-- The environment writing `session.active = False` (explicit stop,
disconnect, or `finish_session`). -/
def deactivate (m : CycleState) : CycleState :=
  { m with session := { m.session with active := false } }

/-! ## Finalize / analysis flow -/

/-- The parsed JSON payload returned by the session-analysis capability
(`json.loads(response.choices[0].message.content)` in
`AIService.analyze_session`): five fields, list lengths unconstrained by the
code.  The filler percentage is a JSON number, modelled as `Rat`. -/
structure RawAnalysis where
  stars : List String
  wish : String
  fillerPercentage : Rat
  takeaways : List String
  summaryBullets : List String
deriving DecidableEq, Repr

/-- The fixed default summary returned for a blank transcript
(`ai_service.py` lines 142–152, duplicated in `main.py` lines 287–294). -/
def defaultSummary : RawAnalysis :=
  { stars := ["Started the session", "Ready to practice"],
    wish := "Have a longer conversation to get more feedback",
    fillerPercentage := 0,
    takeaways :=
      ["Practice makes perfect", "Try again with a real conversation", "Focus on your goals"],
    summaryBullets := ["Session started but no conversation recorded"] }

/-- One line of the serialized transcript:
`f"[{entry['timestamp']}] {entry['speaker']}: {entry['text']}"`. -/
def entryLine (e : TranscriptEntry) : String :=
  "[" ++ toString e.timestamp ++ "] " ++ e.speaker ++ ": " ++ e.text

/-- The serialized transcript block:
`"\n".join(entryLine(e) for e in transcript)` (`ai_service.py` lines 136–139). -/
def transcriptText (transcript : List TranscriptEntry) : String :=
  String.intercalate "\n" (transcript.map entryLine)

/-- `AIService.analyze_session`: if the serialized transcript strips to the
empty string, return the canned default without consulting the capability;
otherwise invoke the analysis capability once and return its (possibly
failed / malformed, hence `Option`) payload.  The second component counts
invocations of the external analysis capability. -/
def analyzeSession (transcript : List TranscriptEntry) (oracle : Option RawAnalysis) :
    Option RawAnalysis × Nat :=
  if pyStrip (transcriptText transcript) = "" then (some defaultSummary, 0)
  else (oracle, 1)

/-- The structured result of `finish_session` (`FinishResponse` in
`app/models/session.py`). -/
structure FinishResponse where
  stars : List String
  wish : String
  fillerPercentage : Rat
  takeaways : List String
  summaryBullets : List String
  transcript : List TranscriptEntry
deriving DecidableEq, Repr

/-- How `finish_session` can fail: unknown session identifier
(`HTTPException 404`), or a failed / malformed analysis-capability response
(an uncaught `KeyError`/API error, surfaced to the caller). -/
inductive FinishErr where
  | notFound
  | analysisFailed
deriving DecidableEq, Repr

/-- The session registry: `SessionManager._sessions`, an identifier-keyed
map, modelled as an association list. -/
def Registry := List (String × Session)
deriving DecidableEq

/-- `SessionManager.get_session`: `self._sessions.get(session_id)` — an
`Option`, `none` (not an exception) for an unknown identifier. -/
def getSession (reg : Registry) (sid : String) : Option Session :=
  List.lookup sid reg

/-- `SessionManager.session_exists`: `session_id in self._sessions`. -/
def sessionExists (reg : Registry) (sid : String) : Bool :=
  (getSession reg sid).isSome

/-- Writing back a mutated session object under its identifier (Python
mutates the object held by the registry in place). -/
def setSession (reg : Registry) (sid : String) (s : Session) : Registry :=
  reg.map fun p => if p.1 = sid then (p.1, s) else p

instance {e a : Type} [DecidableEq e] [DecidableEq a] : DecidableEq (Except e a) := fun x y => by
  cases x <;> cases y
  case error.error u v =>
    exact if h : u = v then isTrue (by rw [h]) else isFalse (by simp [h])
  case error.ok u v => exact isFalse (by simp)
  case ok.error u v => exact isFalse (by simp)
  case ok.ok u v =>
    exact if h : u = v then isTrue (by rw [h]) else isFalse (by simp [h])

/-- Outcome of a `finish_session` call: the HTTP-level result, the registry
afterwards, and how many times the analysis capability was invoked. -/
structure FinishOutcome where
  result : Except FinishErr FinishResponse
  registry : Registry
  analysisCalls : Nat

/-- `finish_session` (`routes.py` lines 156–179): 404 when the identifier is
unknown, otherwise deactivate the session, run `AIService.analyze_session`
on its transcript (oracle-parameterized), and return the five fields of the
analysis payload verbatim together with the full transcript. -/
def finishSession (reg : Registry) (sid : String) (oracle : Option RawAnalysis) :
    FinishOutcome :=
  match getSession reg sid with
  | none => ⟨.error .notFound, reg, 0⟩
  | some s =>
      let s' : Session := { s with active := false }
      let reg' := setSession reg sid s'
      match analyzeSession s.transcript oracle with
      | (some r, n) =>
          ⟨.ok { stars := r.stars, wish := r.wish, fillerPercentage := r.fillerPercentage,
                 takeaways := r.takeaways, summaryBullets := r.summaryBullets,
                 transcript := s.transcript }, reg', n⟩
      | (none, n) => ⟨.error .analysisFailed, reg', n⟩

/-- The shape the spec's capability contract promises for an analysis
payload: exactly two stars, three takeaways, 3–5 summary bullets, filler
percentage within 0–100. -/
def WellFormedRaw (r : RawAnalysis) : Prop :=
  r.stars.length = 2 ∧ r.takeaways.length = 3 ∧
    3 ≤ r.summaryBullets.length ∧ r.summaryBullets.length ≤ 5 ∧
    0 ≤ r.fillerPercentage ∧ r.fillerPercentage ≤ 100

instance : DecidablePred WellFormedRaw := fun r => by
  unfold WellFormedRaw; infer_instance

/-! ## Shared-buffer interleavings

The granularity of interleaving between the ingestion loop and the analysis
cycle is the `await` point (cooperative scheduling); the two-line
detach-and-reset contains no `await`, so a trace is a sequence of atomic
`append` and `detach` operations on the shared buffer. -/

/-- An atomic operation on the shared `audioBuffer`: an ingestion-loop
append of one inbound frame, or the analysis cycle's detach-and-reset. -/
inductive BufOp where
  | append (bytes : List Nat)
  | detach
deriving DecidableEq, Repr

/-- Shared-buffer trace state: the live buffer, the detached chunks in
order, and (ghost) every appended frame in order. -/
structure BufState where
  buffer : List Nat
  detached : List (List Nat)
  appended : List (List Nat)
deriving DecidableEq, Repr

/-- Apply one atomic buffer operation. -/
def bufStep (st : BufState) : BufOp → BufState
  | .append b => { st with buffer := st.buffer ++ b, appended := st.appended ++ [b] }
  | .detach => { st with buffer := [], detached := st.detached ++ [st.buffer] }

/-- Run a whole interleaving from the empty buffer. -/
def runBufOps (ops : List BufOp) : BufState :=
  ops.foldl bufStep ⟨[], [], []⟩

/-! ## Suggestion cadence over a run of ticks -/

/-- The clock values of the ticks on which the suggestion capability fires,
over a run of the analysis cycle fed by a list of tick inputs. -/
def runSugTimes (s : Session) : List TickInput → List Nat
  | [] => []
  | i :: rest =>
      let r := processTick i s
      if r.suggestCalls = 1 then i.now :: runSugTimes r.session rest
      else runSugTimes r.session rest

/-! ## Concrete fixtures -/

/-- A live session holding just over one second of audio and one prior
history entry. -/
def sessA : Session :=
  { sessionId := "sA", context := "job interview", goal := "sound confident",
    userName := "Ana", transcript := [], audioBuffer := List.replicate 32001 0,
    lastSuggestionTime := 0, conversationHistory := [⟨"user", "Hi"⟩], active := true }

/-- A wake at time 20 whose transcription succeeds and whose speech
synthesis raises. -/
def tickErrA : TickInput :=
  { now := 20, transcribeRes := "Hi I am Ana", suggestRes := "Smile and breathe",
    ttsRes := .error "api down" }

/-- A wake at time 5 with a successful synthesis oracle and an empty
conversation history downstream (gate closed). -/
def tickOkB : TickInput :=
  { now := 5, transcribeRes := "Hello there", suggestRes := "tip",
    ttsRes := .ok "AUDIO64" }

/-- A live session with over-threshold audio and no history yet. -/
def sessB : Session :=
  { sessionId := "sB", context := "c", goal := "g", userName := "u",
    transcript := [], audioBuffer := List.replicate 32001 0,
    lastSuggestionTime := 0, conversationHistory := [], active := true }

/-- A session with an empty transcript. -/
def sessE : Session :=
  { sessionId := "sE", context := "c", goal := "g", userName := "u",
    transcript := [], audioBuffer := [], lastSuggestionTime := 0,
    conversationHistory := [], active := true }

/-- Registry holding only `sessE` under `"sE"`. -/
def regE : Registry := [("sE", sessE)]

/-- A session with a one-line transcript. -/
def sessT : Session :=
  { sessionId := "sT", context := "job interview", goal := "sound confident",
    userName := "Ana", transcript := [⟨"user", "Hi I am Ana", 3⟩], audioBuffer := [],
    lastSuggestionTime := 0, conversationHistory := [⟨"user", "Hi I am Ana"⟩],
    active := false }

/-- Registry holding only `sessT` under `"sT"`. -/
def regT : Registry := [("sT", sessT)]

/-- A contract-honoring analysis payload. -/
def rawA : RawAnalysis :=
  { stars := ["clear voice", "good pace"], wish := "pause more",
    fillerPercentage := 5, takeaways := ["t1", "t2", "t3"],
    summaryBullets := ["b1", "b2", "b3"] }

/-- The response `finish_session` produces for `sessE` (the canned default
summary plus the empty transcript). -/
def respE : FinishResponse :=
  { stars := ["Started the session", "Ready to practice"],
    wish := "Have a longer conversation to get more feedback",
    fillerPercentage := 0,
    takeaways :=
      ["Practice makes perfect", "Try again with a real conversation", "Focus on your goals"],
    summaryBullets := ["Session started but no conversation recorded"],
    transcript := [] }

/-- The response `finish_session` produces for `sessT` with oracle `rawA`. -/
def respT : FinishResponse :=
  { stars := ["clear voice", "good pace"], wish := "pause more",
    fillerPercentage := 5, takeaways := ["t1", "t2", "t3"],
    summaryBullets := ["b1", "b2", "b3"],
    transcript := [⟨"user", "Hi I am Ana", 3⟩] }

/-- A seven-entry conversation history (exceeds the window size). -/
def histW : List ChatMsg :=
  [⟨"user", "a"⟩, ⟨"user", "b"⟩, ⟨"user", "c"⟩, ⟨"user", "d"⟩,
   ⟨"user", "e"⟩, ⟨"user", "f"⟩, ⟨"user", "g"⟩]

/-- The window the suggestion capability receives on the `tickErrA` wake of
`sessA`. -/
def winW : List ChatMsg := [⟨"user", "Hi"⟩, ⟨"user", "Hi I am Ana"⟩]

/-- `sessB` after the environment has flipped `active` to false. -/
def sessBoff : Session := { sessB with active := false }

/-! ## Characterization of one tick, branch by branch -/

/-- Below (or at) the byte threshold the wake does nothing at all. -/
lemma processTick_below (i : TickInput) (s : Session)
    (h : s.audioBuffer.length ≤ 32000) :
    processTick i s =
      { session := s, events := [], transcribeCalls := 0, suggestCalls := 0,
        ttsCalls := 0, suggestWindow := none } := by
  unfold processTick
  rw [if_neg (by omega)]

/-- Above the threshold with a blank transcription: the buffer is detached
and discarded, nothing else happens. -/
lemma processTick_emptyText (i : TickInput) (s : Session)
    (hbuf : 32000 < s.audioBuffer.length) (htxt : pyStrip i.transcribeRes = "") :
    processTick i s =
      { session := { s with audioBuffer := [] }, events := [], transcribeCalls := 1,
        suggestCalls := 0, ttsCalls := 0, suggestWindow := none } := by
  unfold processTick
  rw [if_pos (by omega)]
  simp [htxt]

/-- Above the threshold, non-blank transcription, gate closed: transcript
and history grow by the user entry, one transcript frame, no suggestion. -/
lemma processTick_noGate (i : TickInput) (s : Session)
    (hbuf : 32000 < s.audioBuffer.length) (htxt : pyStrip i.transcribeRes ≠ "")
    (hgate : ¬(8 ≤ tdSeconds i.now s.lastSuggestionTime ∧
               2 ≤ s.conversationHistory.length + 1)) :
    processTick i s =
      { session :=
          { s with
            audioBuffer := [],
            transcript := s.transcript ++ [⟨"user", pyStrip i.transcribeRes, i.now⟩],
            conversationHistory :=
              s.conversationHistory ++ [⟨"user", pyStrip i.transcribeRes⟩] },
        events := [OutEvent.transcriptEv (pyStrip i.transcribeRes) "user" i.now],
        transcribeCalls := 1, suggestCalls := 0, ttsCalls := 0, suggestWindow := none } := by
  unfold processTick
  rw [if_pos (by omega)]
  simp only []
  rw [if_pos htxt]
  rw [if_neg (by simpa using hgate)]

/-- Above the threshold, non-blank transcription, gate open, synthesis
succeeding: user and coach entries, three frames, cadence clock reset. -/
lemma processTick_fireOk (i : TickInput) (s : Session) (audioB64 : String)
    (hbuf : 32000 < s.audioBuffer.length) (htxt : pyStrip i.transcribeRes ≠ "")
    (hgate8 : 8 ≤ tdSeconds i.now s.lastSuggestionTime)
    (hh : 1 ≤ s.conversationHistory.length)
    (htts : i.ttsRes = .ok audioB64) :
    processTick i s =
      { session :=
          { s with
            audioBuffer := [],
            transcript := s.transcript ++
              [⟨"user", pyStrip i.transcribeRes, i.now⟩,
               ⟨"coach", pyStrip i.suggestRes, i.now⟩],
            conversationHistory :=
              s.conversationHistory ++ [⟨"user", pyStrip i.transcribeRes⟩],
            lastSuggestionTime := i.now },
        events := [OutEvent.transcriptEv (pyStrip i.transcribeRes) "user" i.now,
                   OutEvent.suggestionEv (pyStrip i.suggestRes) i.now,
                   OutEvent.audioEv audioB64 "mp3"],
        transcribeCalls := 1, suggestCalls := 1, ttsCalls := 1,
        suggestWindow :=
          some (recentWindow
            (s.conversationHistory ++ [⟨"user", pyStrip i.transcribeRes⟩])) } := by
  unfold processTick
  rw [if_pos (by omega)]
  simp only []
  rw [if_pos htxt]
  rw [if_pos ⟨hgate8, by simp only [List.length_append, List.length_cons, List.length_nil]; omega⟩]
  rw [htts]
  simp

/-- Same as `processTick_fireOk` but the synthesis capability raises: the
transcript and suggestion frames are still sent, no audio frame, and the
cadence clock is still reset. -/
lemma processTick_fireErr (i : TickInput) (s : Session) (e : String)
    (hbuf : 32000 < s.audioBuffer.length) (htxt : pyStrip i.transcribeRes ≠ "")
    (hgate8 : 8 ≤ tdSeconds i.now s.lastSuggestionTime)
    (hh : 1 ≤ s.conversationHistory.length)
    (htts : i.ttsRes = .error e) :
    processTick i s =
      { session :=
          { s with
            audioBuffer := [],
            transcript := s.transcript ++
              [⟨"user", pyStrip i.transcribeRes, i.now⟩,
               ⟨"coach", pyStrip i.suggestRes, i.now⟩],
            conversationHistory :=
              s.conversationHistory ++ [⟨"user", pyStrip i.transcribeRes⟩],
            lastSuggestionTime := i.now },
        events := [OutEvent.transcriptEv (pyStrip i.transcribeRes) "user" i.now,
                   OutEvent.suggestionEv (pyStrip i.suggestRes) i.now],
        transcribeCalls := 1, suggestCalls := 1, ttsCalls := 1,
        suggestWindow :=
          some (recentWindow
            (s.conversationHistory ++ [⟨"user", pyStrip i.transcribeRes⟩])) } := by
  unfold processTick
  rw [if_pos (by omega)]
  simp only []
  rw [if_pos htxt]
  rw [if_pos ⟨hgate8, by simp only [List.length_append, List.length_cons, List.length_nil]; omega⟩]
  rw [htts]
  simp

/-- Case-analysis principle for one tick, phrased through the five branch
characterizations. -/
lemma processTick_cases (P : TickResult → Prop) (i : TickInput) (s : Session)
    (hbelow : s.audioBuffer.length ≤ 32000 →
      P { session := s, events := [], transcribeCalls := 0, suggestCalls := 0,
          ttsCalls := 0, suggestWindow := none })
    (hempty : 32000 < s.audioBuffer.length → pyStrip i.transcribeRes = "" →
      P { session := { s with audioBuffer := [] }, events := [], transcribeCalls := 1,
          suggestCalls := 0, ttsCalls := 0, suggestWindow := none })
    (hnogate : 32000 < s.audioBuffer.length → pyStrip i.transcribeRes ≠ "" →
      ¬(8 ≤ tdSeconds i.now s.lastSuggestionTime ∧
        2 ≤ s.conversationHistory.length + 1) →
      P { session :=
            { s with
              audioBuffer := [],
              transcript := s.transcript ++ [⟨"user", pyStrip i.transcribeRes, i.now⟩],
              conversationHistory :=
                s.conversationHistory ++ [⟨"user", pyStrip i.transcribeRes⟩] },
          events := [OutEvent.transcriptEv (pyStrip i.transcribeRes) "user" i.now],
          transcribeCalls := 1, suggestCalls := 0, ttsCalls := 0, suggestWindow := none })
    (hfireOk : ∀ audioB64, 32000 < s.audioBuffer.length →
      pyStrip i.transcribeRes ≠ "" → 8 ≤ tdSeconds i.now s.lastSuggestionTime →
      1 ≤ s.conversationHistory.length → i.ttsRes = .ok audioB64 →
      P { session :=
            { s with
              audioBuffer := [],
              transcript := s.transcript ++
                [⟨"user", pyStrip i.transcribeRes, i.now⟩,
                 ⟨"coach", pyStrip i.suggestRes, i.now⟩],
              conversationHistory :=
                s.conversationHistory ++ [⟨"user", pyStrip i.transcribeRes⟩],
              lastSuggestionTime := i.now },
          events := [OutEvent.transcriptEv (pyStrip i.transcribeRes) "user" i.now,
                     OutEvent.suggestionEv (pyStrip i.suggestRes) i.now,
                     OutEvent.audioEv audioB64 "mp3"],
          transcribeCalls := 1, suggestCalls := 1, ttsCalls := 1,
          suggestWindow :=
            some (recentWindow
              (s.conversationHistory ++ [⟨"user", pyStrip i.transcribeRes⟩])) })
    (hfireErr : ∀ e, 32000 < s.audioBuffer.length →
      pyStrip i.transcribeRes ≠ "" → 8 ≤ tdSeconds i.now s.lastSuggestionTime →
      1 ≤ s.conversationHistory.length → i.ttsRes = .error e →
      P { session :=
            { s with
              audioBuffer := [],
              transcript := s.transcript ++
                [⟨"user", pyStrip i.transcribeRes, i.now⟩,
                 ⟨"coach", pyStrip i.suggestRes, i.now⟩],
              conversationHistory :=
                s.conversationHistory ++ [⟨"user", pyStrip i.transcribeRes⟩],
              lastSuggestionTime := i.now },
          events := [OutEvent.transcriptEv (pyStrip i.transcribeRes) "user" i.now,
                     OutEvent.suggestionEv (pyStrip i.suggestRes) i.now],
          transcribeCalls := 1, suggestCalls := 1, ttsCalls := 1,
          suggestWindow :=
            some (recentWindow
              (s.conversationHistory ++ [⟨"user", pyStrip i.transcribeRes⟩])) }) :
    P (processTick i s) := by
  by_cases hbuf : 32000 < s.audioBuffer.length
  · by_cases htxt : pyStrip i.transcribeRes = ""
    · rw [processTick_emptyText i s hbuf htxt]
      exact hempty hbuf htxt
    · by_cases hgate : 8 ≤ tdSeconds i.now s.lastSuggestionTime ∧
          2 ≤ s.conversationHistory.length + 1
      · cases htts : i.ttsRes with
        | ok a =>
            rw [processTick_fireOk i s a hbuf htxt hgate.1 (by omega) htts]
            exact hfireOk a hbuf htxt hgate.1 (by omega) htts
        | error e =>
            rw [processTick_fireErr i s e hbuf htxt hgate.1 (by omega) htts]
            exact hfireErr e hbuf htxt hgate.1 (by omega) htts
      · rw [processTick_noGate i s hbuf htxt hgate]
        exact hnogate hbuf htxt hgate
  · rw [processTick_below i s (by omega)]
    exact hbelow (by omega)

/-- A tick never touches the `active` flag. -/
lemma processTick_active (i : TickInput) (s : Session) :
    (processTick i s).session.active = s.active := by
  refine processTick_cases (fun r => r.session.active = s.active) i s ?_ ?_ ?_ ?_ ?_
  all_goals intros; rfl

/-- A tick that invokes the suggestion capability resets the cadence clock
to the tick's time. -/
lemma processTick_suggest_last (i : TickInput) (s : Session)
    (h : (processTick i s).suggestCalls = 1) :
    (processTick i s).session.lastSuggestionTime = i.now := by
  revert h
  refine processTick_cases
    (fun r => r.suggestCalls = 1 → r.session.lastSuggestionTime = i.now) i s ?_ ?_ ?_ ?_ ?_
  all_goals intros; first | rfl | simp_all

/-- A tick that does not invoke the suggestion capability leaves the
cadence clock alone. -/
lemma processTick_nosuggest_last (i : TickInput) (s : Session)
    (h : (processTick i s).suggestCalls ≠ 1) :
    (processTick i s).session.lastSuggestionTime = s.lastSuggestionTime := by
  revert h
  refine processTick_cases
    (fun r => r.suggestCalls ≠ 1 → r.session.lastSuggestionTime = s.lastSuggestionTime)
    i s ?_ ?_ ?_ ?_ ?_
  all_goals intros; first | rfl | simp_all

/-- A tick that invokes the suggestion capability lies at least 8 time
units after the previous cadence mark. -/
lemma processTick_suggest_gap (i : TickInput) (s : Session)
    (h : (processTick i s).suggestCalls = 1) :
    s.lastSuggestionTime + 8 ≤ i.now := by
  revert h
  refine processTick_cases
    (fun r => r.suggestCalls = 1 → s.lastSuggestionTime + 8 ≤ i.now) i s ?_ ?_ ?_ ?_ ?_
  case refine_1 => intros; simp_all
  case refine_2 => intros; simp_all
  case refine_3 => intros; simp_all
  all_goals
    intro _ _ _ hgate8 _ _ _
    have hle : tdSeconds i.now s.lastSuggestionTime ≤ i.now - s.lastSuggestionTime :=
      Nat.mod_le _ _
    unfold tdSeconds at hgate8 hle
    omega


lemma sessA_buflen : sessA.audioBuffer.length = 32001 := by
  rw [show sessA.audioBuffer = List.replicate 32001 0 from rfl, List.length_replicate]

lemma sessB_buflen : sessB.audioBuffer.length = 32001 := by
  rw [show sessB.audioBuffer = List.replicate 32001 0 from rfl, List.length_replicate]

/-! ## Shared-buffer and cadence invariants -/

/-- Invariant of the shared-buffer trace: the detached chunks followed by
the live buffer are exactly the appended frames, in order. -/
lemma bufStep_fold_inv (ops : List BufOp) (st : BufState)
    (h : st.detached.flatten ++ st.buffer = st.appended.flatten) :
    (ops.foldl bufStep st).detached.flatten ++ (ops.foldl bufStep st).buffer
      = (ops.foldl bufStep st).appended.flatten := by
  induction ops generalizing st with
  | nil => exact h
  | cons op rest ih =>
      cases op with
      | append b =>
          refine ih _ ?_
          simp only [bufStep, List.flatten_append, List.flatten_cons, List.flatten_nil,
            List.append_nil]
          rw [← List.append_assoc, h]
      | detach =>
          refine ih _ ?_
          simp only [bufStep, List.flatten_append, List.flatten_cons, List.flatten_nil,
            List.append_nil]
          exact h

/-- The cadence marks of a run are separated by at least 8 time units,
starting from the session's stored cadence mark. -/
lemma runSugTimes_chain (inputs : List TickInput) (s : Session) :
    List.Chain' (fun a b => a + 8 ≤ b) (s.lastSuggestionTime :: runSugTimes s inputs) := by
  induction inputs generalizing s with
  | nil => simp [runSugTimes]
  | cons i rest ih =>
      simp only [runSugTimes]
      by_cases h : (processTick i s).suggestCalls = 1
      · rw [if_pos h]
        have h1 := processTick_suggest_gap i s h
        have h2 := processTick_suggest_last i s h
        have h3 := ih (processTick i s).session
        rw [h2] at h3
        exact List.chain'_cons.mpr ⟨h1, h3⟩
      · rw [if_neg h]
        have h2 := processTick_nosuggest_last i s h
        have h3 := ih (processTick i s).session
        rw [h2] at h3
        exact h3

/-- Per-tick gating facts: a tick that invokes the suggestion capability
has at least two history entries at gate time, lies at least 8 time units
after the stored cadence mark, and happened only right after a non-empty
transcription of an above-threshold buffer. -/
lemma suggest_gate_facts (i : TickInput) (s : Session)
    (h : (processTick i s).suggestCalls = 1) :
    2 ≤ (processTick i s).session.conversationHistory.length ∧
      s.lastSuggestionTime + 8 ≤ i.now ∧
      32000 < s.audioBuffer.length ∧ pyStrip i.transcribeRes ≠ "" := by
  have hgap := processTick_suggest_gap i s h
  revert h
  refine processTick_cases
    (fun r => r.suggestCalls = 1 →
      2 ≤ r.session.conversationHistory.length ∧
        s.lastSuggestionTime + 8 ≤ i.now ∧
        32000 < s.audioBuffer.length ∧ pyStrip i.transcribeRes ≠ "") i s ?_ ?_ ?_ ?_ ?_
  case refine_1 => intros; simp_all
  case refine_2 => intros; simp_all
  case refine_3 => intros; simp_all
  all_goals
    intro _ hbuf htxt _ hh _ _
    refine ⟨?_, hgap, hbuf, htxt⟩
    simp only [List.length_append, List.length_cons, List.length_nil]
    omega

/-! ## Claim theorems -/

/-- C4 (confirmed): on each poll tick the analysis cycle invokes the
transcription capability exactly when the audio buffer holds strictly more
than 32,000 bytes; at or below the threshold the tick is a no-op (no calls,
no frames, no state change), and an ingestion append only extends the
buffer. -/
theorem C4_transcription_threshold (i : TickInput) (s : Session) (b : List Nat) :
    ((processTick i s).transcribeCalls = 1 ↔ 32000 < s.audioBuffer.length) ∧
    (s.audioBuffer.length ≤ 32000 →
      processTick i s =
        { session := s, events := [], transcribeCalls := 0, suggestCalls := 0,
          ttsCalls := 0, suggestWindow := none }) ∧
    (appendAudio s b).audioBuffer = s.audioBuffer ++ b ∧
    s.audioBuffer.length ≤ ((appendAudio s b).audioBuffer).length := by
  refine ⟨⟨?_, ?_⟩, ?_, rfl, by simp [appendAudio]⟩
  · intro h
    by_contra hn
    push_neg at hn
    rw [processTick_below i s hn] at h
    simp at h
  · intro h
    refine processTick_cases (fun r => r.transcribeCalls = 1) i s ?_ ?_ ?_ ?_ ?_ <;>
      intros <;> first | rfl | omega
  · intro h
    exact processTick_below i s h

/-- C4 witness: a tick over an empty buffer is a no-op. -/
theorem C4_witness :
    processTick tickOkB sessE =
      { session := sessE, events := [], transcribeCalls := 0, suggestCalls := 0,
        ttsCalls := 0, suggestWindow := none } :=
  (C4_transcription_threshold tickOkB sessE []).2.1 (by decide)

/-- C10 (confirmed): when a tick crosses the byte threshold but the
transcription strips to the empty string, the transcript, the conversation
history and the cadence mark are unchanged and no frame is sent — yet the
detached audio has been removed from the buffer and discarded. -/
theorem C10_empty_transcription_frame (i : TickInput) (s : Session)
    (hbuf : 32000 < s.audioBuffer.length) (htxt : pyStrip i.transcribeRes = "") :
    (processTick i s).session.transcript = s.transcript ∧
    (processTick i s).session.conversationHistory = s.conversationHistory ∧
    (processTick i s).session.lastSuggestionTime = s.lastSuggestionTime ∧
    (processTick i s).events = [] ∧
    (processTick i s).session.audioBuffer = [] ∧
    (processTick i s).transcribeCalls = 1 := by
  rw [processTick_emptyText i s hbuf htxt]
  exact ⟨rfl, rfl, rfl, rfl, rfl, rfl⟩

/-- C10 witness: a whitespace-only transcription over `sessA`. -/
theorem C10_witness :
    (processTick ⟨9, "   ", "tip", .ok "A"⟩ sessA).session.transcript = sessA.transcript ∧
    (processTick ⟨9, "   ", "tip", .ok "A"⟩ sessA).session.conversationHistory =
      sessA.conversationHistory ∧
    (processTick ⟨9, "   ", "tip", .ok "A"⟩ sessA).session.lastSuggestionTime =
      sessA.lastSuggestionTime ∧
    (processTick ⟨9, "   ", "tip", .ok "A"⟩ sessA).events = [] ∧
    (processTick ⟨9, "   ", "tip", .ok "A"⟩ sessA).session.audioBuffer = [] ∧
    (processTick ⟨9, "   ", "tip", .ok "A"⟩ sessA).transcribeCalls = 1 :=
  C10_empty_transcription_frame ⟨9, "   ", "tip", .ok "A"⟩ sessA
    (by rw [sessA_buflen]; omega) (by decide)

/-- C7 (confirmed): over every interleaving of ingestion appends and the
analysis cycle's atomic detach-and-reset, the detached chunks followed by
the bytes still in the buffer are exactly the appended frames in order —
no byte is lost or duplicated. -/
theorem C7_no_bytes_lost (ops : List BufOp) :
    (runBufOps ops).detached.flatten ++ (runBufOps ops).buffer
      = (runBufOps ops).appended.flatten :=
  bufStep_fold_inv ops ⟨[], [], []⟩ rfl

/-- C9 (confirmed): finalize on an identifier absent from the registry
fails with the not-found outcome, leaves the registry untouched, and never
reaches the analysis capability; the registry lookup itself returns `none`
rather than raising. -/
theorem C9_unknown_session (reg : Registry) (sid : String) (oracle : Option RawAnalysis)
    (h : getSession reg sid = none) :
    (finishSession reg sid oracle).result = .error .notFound ∧
    (finishSession reg sid oracle).registry = reg ∧
    (finishSession reg sid oracle).analysisCalls = 0 := by
  unfold finishSession
  rw [h]
  exact ⟨rfl, rfl, rfl⟩

/-- C9 witness: an unknown identifier against the singleton registry. -/
theorem C9_witness :
    (finishSession regE "missing" (some rawA)).result = .error .notFound ∧
    (finishSession regE "missing" (some rawA)).registry = regE ∧
    (finishSession regE "missing" (some rawA)).analysisCalls = 0 :=
  C9_unknown_session regE "missing" (some rawA) (by decide)

/-- C5 (confirmed): finalize on a session whose serialized transcript is
empty or only whitespace succeeds with the fixed default summary (two
canned strengths, one canned improvement area, 0% filler, three canned
takeaways, one canned bullet) and never invokes the analysis capability. -/
theorem C5_empty_transcript_default (reg : Registry) (sid : String) (s : Session)
    (oracle : Option RawAnalysis)
    (hs : getSession reg sid = some s)
    (hempty : pyStrip (transcriptText s.transcript) = "") :
    (finishSession reg sid oracle).result =
      .ok { stars := ["Started the session", "Ready to practice"],
            wish := "Have a longer conversation to get more feedback",
            fillerPercentage := 0,
            takeaways := ["Practice makes perfect", "Try again with a real conversation",
                          "Focus on your goals"],
            summaryBullets := ["Session started but no conversation recorded"],
            transcript := s.transcript } ∧
    (finishSession reg sid oracle).analysisCalls = 0 := by
  simp [finishSession, analyzeSession, hs, hempty, defaultSummary]

/-- C5 witness: finalizing `sessE` (empty transcript) with a live oracle. -/
theorem C5_witness :
    (finishSession regE "sE" (some rawA)).result =
      .ok { stars := ["Started the session", "Ready to practice"],
            wish := "Have a longer conversation to get more feedback",
            fillerPercentage := 0,
            takeaways := ["Practice makes perfect", "Try again with a real conversation",
                          "Focus on your goals"],
            summaryBullets := ["Session started but no conversation recorded"],
            transcript := sessE.transcript } ∧
    (finishSession regE "sE" (some rawA)).analysisCalls = 0 :=
  C5_empty_transcript_default regE "sE" sessE (some rawA) (by decide) (by decide)


/-- C3 (confirmed): the suggestion capability fires only when the
conversation history holds at least two entries at gate time, only at least
8 time units after the stored cadence mark, and only immediately after a
non-empty transcription of an above-threshold buffer; over any run, the
times of consecutive suggestion firings are at least 8 time units apart. -/
theorem C3_suggestion_gating :
    (∀ (i : TickInput) (s : Session), (processTick i s).suggestCalls = 1 →
      2 ≤ (processTick i s).session.conversationHistory.length ∧
      s.lastSuggestionTime + 8 ≤ i.now ∧
      32000 < s.audioBuffer.length ∧ pyStrip i.transcribeRes ≠ "") ∧
    (∀ (s : Session) (inputs : List TickInput),
      List.Chain' (fun a b => a + 8 ≤ b) (s.lastSuggestionTime :: runSugTimes s inputs)) :=
  ⟨suggest_gate_facts, fun s inputs => runSugTimes_chain inputs s⟩

/-- C3 witness: a firing tick and a one-tick run. -/
theorem C3_witness :
    (2 ≤ (processTick tickErrA sessA).session.conversationHistory.length ∧
      sessA.lastSuggestionTime + 8 ≤ tickErrA.now ∧
      32000 < sessA.audioBuffer.length ∧ pyStrip tickErrA.transcribeRes ≠ "") ∧
    List.Chain' (fun a b => a + 8 ≤ b)
      (sessB.lastSuggestionTime :: runSugTimes sessB [tickOkB]) := by
  constructor
  · refine C3_suggestion_gating.1 tickErrA sessA ?_
    rw [processTick_fireErr tickErrA sessA "api down" (by rw [sessA_buflen]; omega)
      (by decide) (by decide) (by decide) rfl]
  · exact C3_suggestion_gating.2 sessB [tickOkB]

/-- C8 (confirmed): the history window handed to the suggestion capability
is exactly the most recent `min 6 n` entries of the conversation history —
its elements are a terminal segment of the history, and the whole history
when there are at most six entries. -/
theorem C8_suggestion_window :
    (∀ h : List ChatMsg,
      (recentWindow h).length = min 6 h.length ∧
      h.take (h.length - 6) ++ recentWindow h = h ∧
      (h.length ≤ 6 → recentWindow h = h)) ∧
    (∀ (i : TickInput) (s : Session) (w : List ChatMsg),
      (processTick i s).suggestWindow = some w →
      w = recentWindow (processTick i s).session.conversationHistory) := by
  constructor
  · intro h
    refine ⟨?_, List.take_append_drop _ h, ?_⟩
    · rw [recentWindow, List.length_drop]
      omega
    · intro hle
      rw [recentWindow, Nat.sub_eq_zero_of_le hle, List.drop_zero]
  · intro i s w
    refine processTick_cases
      (fun r => r.suggestWindow = some w →
        w = recentWindow r.session.conversationHistory) i s ?_ ?_ ?_ ?_ ?_ <;>
      intros <;> simp_all

/-- C8 witness: the window facts on a seven-entry history, and the actual
window of a firing tick. -/
theorem C8_witness :
    ((recentWindow histW).length = min 6 histW.length ∧
      histW.take (histW.length - 6) ++ recentWindow histW = histW ∧
      (histW.length ≤ 6 → recentWindow histW = histW)) ∧
    winW = recentWindow (processTick tickErrA sessA).session.conversationHistory := by
  refine ⟨C8_suggestion_window.1 histW, C8_suggestion_window.2 tickErrA sessA winW ?_⟩
  rw [processTick_fireErr tickErrA sessA "api down" (by rw [sessA_buflen]; omega)
    (by decide) (by decide) (by decide) rfl]
  decide

/-- C6 (confirmed): when the speech-synthesis capability raises on a
triggered suggestion, the transcript and suggestion frames have already
been sent (and no audio frame follows), the cadence mark is still set to
the tick's time, the session stays active, and the cycle proceeds to its
next wake. -/
theorem C6_synthesis_failure (i i2 : TickInput) (s : Session) (e : String)
    (log : List OutEvent)
    (hbuf : 32000 < s.audioBuffer.length) (htxt : pyStrip i.transcribeRes ≠ "")
    (hgate8 : 8 ≤ tdSeconds i.now s.lastSuggestionTime)
    (hh : 1 ≤ s.conversationHistory.length)
    (htts : i.ttsRes = .error e)
    (hact : s.active = true) :
    (processTick i s).events =
      [OutEvent.transcriptEv (pyStrip i.transcribeRes) "user" i.now,
       OutEvent.suggestionEv (pyStrip i.suggestRes) i.now] ∧
    (processTick i s).suggestCalls = 1 ∧
    (processTick i s).session.lastSuggestionTime = i.now ∧
    (processTick i s).session.active = true ∧
    (cycleStep i2 (cycleStep i ⟨Phase.sleeping, s, log⟩)).phase = Phase.sleeping := by
  have hchar := processTick_fireErr i s e hbuf htxt hgate8 hh htts
  refine ⟨by rw [hchar], by rw [hchar], by rw [hchar], by rw [hchar, ← hact], ?_⟩
  have h1 : cycleStep i ⟨Phase.sleeping, s, log⟩ =
      ⟨Phase.checking, (processTick i s).session, log ++ (processTick i s).events⟩ := rfl
  rw [h1]
  simp [cycleStep, processTick_active, hact]

/-- C6 witness: the failing-synthesis tick `tickErrA` on `sessA`. -/
theorem C6_witness :
    (processTick tickErrA sessA).events =
      [OutEvent.transcriptEv (pyStrip tickErrA.transcribeRes) "user" tickErrA.now,
       OutEvent.suggestionEv (pyStrip tickErrA.suggestRes) tickErrA.now] ∧
    (processTick tickErrA sessA).suggestCalls = 1 ∧
    (processTick tickErrA sessA).session.lastSuggestionTime = tickErrA.now ∧
    (processTick tickErrA sessA).session.active = true ∧
    (cycleStep tickOkB (cycleStep tickErrA ⟨Phase.sleeping, sessA, []⟩)).phase =
      Phase.sleeping :=
  C6_synthesis_failure tickErrA tickOkB sessA "api down" []
    (by rw [sessA_buflen]; omega) (by decide) (by decide) (by decide) rfl (by decide)

/-- C2 counterexample: the analysis cycle passes the loop check while the
session is active and begins its sleep; the environment (the finalize path,
which never cancels the task) then flips `active` to false; the wake that
ends the in-flight sleep still emits a transcript frame — an outbound frame
after deactivation, contradicting the claim that no further outbound frames
of any type are produced. -/
theorem C2_counterexample :
    (cycleStep tickOkB ⟨Phase.checking, sessB, []⟩).phase = Phase.sleeping ∧
    deactivate (cycleStep tickOkB ⟨Phase.checking, sessB, []⟩) =
      ⟨Phase.sleeping, sessBoff, []⟩ ∧
    sessBoff.active = false ∧
    (cycleStep tickOkB ⟨Phase.sleeping, sessBoff, []⟩).log =
      [OutEvent.transcriptEv "Hello there" "user" 5] := by
  refine ⟨rfl, rfl, rfl, ?_⟩
  have h1 : cycleStep tickOkB ⟨Phase.sleeping, sessBoff, []⟩ =
      ⟨Phase.checking, (processTick tickOkB sessBoff).session,
        [] ++ (processTick tickOkB sessBoff).events⟩ := rfl
  rw [h1]
  rw [processTick_noGate tickOkB sessBoff
    (by rw [show sessBoff.audioBuffer = List.replicate 32001 0 from rfl,
          List.length_replicate]; omega)
    (by decide) (by decide)]
  decide

/-- C2 (corrected): once `active` is false the analysis cycle stops
scheduling further wakes and reaches its exit within at most two machine
steps (one poll period); the only frames it can still emit are those of the
single iteration already in flight, and from the exit state every further
step is a no-op. -/
theorem C2_deactivation_halts (m : CycleState) (i1 i2 i3 : TickInput)
    (h : m.session.active = false) :
    (cycleStep i2 (cycleStep i1 m)).phase = Phase.done ∧
    ((cycleStep i2 (cycleStep i1 m)).log = m.log ∨
     (cycleStep i2 (cycleStep i1 m)).log = m.log ++ (processTick i1 m.session).events) ∧
    cycleStep i3 (cycleStep i2 (cycleStep i1 m)) = cycleStep i2 (cycleStep i1 m) := by
  obtain ⟨ph, sess, log⟩ := m
  simp only at h
  cases ph
  case checking => simp [cycleStep, h]
  case sleeping =>
    have ha : (processTick i1 sess).session.active = false := by
      rw [processTick_active]; exact h
    simp [cycleStep, ha]
  case done => simp [cycleStep]

/-- C2 witness: the halted machine after deactivation of `sessBoff`. -/
theorem C2_witness :
    (cycleStep tickOkB (cycleStep tickOkB ⟨Phase.sleeping, sessBoff, []⟩)).phase =
      Phase.done ∧
    ((cycleStep tickOkB (cycleStep tickOkB ⟨Phase.sleeping, sessBoff, []⟩)).log = [] ∨
     (cycleStep tickOkB (cycleStep tickOkB ⟨Phase.sleeping, sessBoff, []⟩)).log =
       [] ++ (processTick tickOkB sessBoff).events) ∧
    cycleStep tickOkB (cycleStep tickOkB (cycleStep tickOkB ⟨Phase.sleeping, sessBoff, []⟩)) =
      cycleStep tickOkB (cycleStep tickOkB ⟨Phase.sleeping, sessBoff, []⟩) :=
  C2_deactivation_halts ⟨Phase.sleeping, sessBoff, []⟩ tickOkB tickOkB tickOkB rfl

/-- C1 counterexample: finalizing a session with an empty transcript
succeeds (even with a contract-honoring analysis oracle available) and
returns exactly one summary bullet, not 3–5, so the claimed shape does not
cover the fallback path. -/
theorem C1_counterexample :
    WellFormedRaw rawA ∧
    (finishSession regE "sE" (some rawA)).result = Except.ok respE ∧
    respE.summaryBullets.length = 1 ∧ ¬(3 ≤ respE.summaryBullets.length) := by
  refine ⟨by decide, by decide, by decide, by decide⟩

/-- C1 (corrected): a successful finalize whose analysis oracle honors the
capability contract returns two stars, one wish, a 0–100 filler percentage,
three takeaways and 3–5 summary bullets whenever the serialized transcript
is non-blank; on the blank-transcript fallback path it instead returns the
default summary's shape — two stars, three takeaways, 0 filler and exactly
one summary bullet. -/
theorem C1_finalize_shape (reg : Registry) (sid : String) (s : Session)
    (r : RawAnalysis) (resp : FinishResponse)
    (hs : getSession reg sid = some s)
    (hwf : WellFormedRaw r)
    (hok : (finishSession reg sid (some r)).result = .ok resp) :
    (pyStrip (transcriptText s.transcript) ≠ "" →
      resp.stars.length = 2 ∧ resp.takeaways.length = 3 ∧
      3 ≤ resp.summaryBullets.length ∧ resp.summaryBullets.length ≤ 5 ∧
      0 ≤ resp.fillerPercentage ∧ resp.fillerPercentage ≤ 100) ∧
    (pyStrip (transcriptText s.transcript) = "" →
      resp.stars.length = 2 ∧ resp.takeaways.length = 3 ∧
      resp.summaryBullets.length = 1 ∧ resp.fillerPercentage = 0) := by
  by_cases hempty : pyStrip (transcriptText s.transcript) = ""
  · simp [finishSession, analyzeSession, hs, hempty, defaultSummary] at hok
    constructor
    · intro hne
      exact absurd hempty hne
    · intro _
      rw [← hok]
      exact ⟨rfl, rfl, rfl, rfl⟩
  · simp [finishSession, analyzeSession, hs, hempty] at hok
    constructor
    · intro _
      obtain ⟨h1, h2, h3, h4, h5, h6⟩ := hwf
      rw [← hok]
      exact ⟨h1, h2, h3, h4, h5, h6⟩
    · intro hc
      exact absurd hc hempty

/-- C1 witness: finalizing the one-line-transcript session `sessT` with the
contract-honoring payload `rawA`. -/
theorem C1_witness :
    (pyStrip (transcriptText sessT.transcript) ≠ "" →
      respT.stars.length = 2 ∧ respT.takeaways.length = 3 ∧
      3 ≤ respT.summaryBullets.length ∧ respT.summaryBullets.length ≤ 5 ∧
      0 ≤ respT.fillerPercentage ∧ respT.fillerPercentage ≤ 100) ∧
    (pyStrip (transcriptText sessT.transcript) = "" →
      respT.stars.length = 2 ∧ respT.takeaways.length = 3 ∧
      respT.summaryBullets.length = 1 ∧ respT.fillerPercentage = 0) :=
  C1_finalize_shape regT "sT" sessT rawA respT (by decide) (by decide) (by decide)

end Coco
